import Mathlib

/-
Verification of the PyDataBridge incremental warehouse-loading core.

Shallow embedding of src/gerenciador_banco_dados.py, src/DataBaseEngine.py and
src/DataBaseEngine_script.py. Pure computations (statement text generation,
content hashing, change classification) become Lean functions; the stateful
database interaction is modelled as the list of effects issued through the
connection/cursor collaborator, and the warehouse table contents are passed in
explicitly as the rows the embedded SELECT statements would return.
-/

namespace PyDataBridge

/-- Python str.join: joins a list of strings with the separator between
consecutive elements, mirroring sep.join(parts). -/
def pyJoin (sep : String) : List String → String
  | [] => ""
  | [x] => x
  | x :: y :: ys => x ++ sep ++ pyJoin sep (y :: ys)

/-- Number of occurrences of a character in a string. -/
def countChar (c : Char) (s : String) : Nat :=
  s.data.count c

theorem countChar_append (c : Char) (a b : String) :
    countChar c (a ++ b) = countChar c a + countChar c b := by
  simp [countChar, String.data_append, List.count_append]

theorem countChar_pyJoin_zero (c : Char) (sep : String) (hsep : countChar c sep = 0) :
    ∀ l : List String, (∀ s ∈ l, countChar c s = 0) → countChar c (pyJoin sep l) = 0
  | [], _ => rfl
  | [x], h => h x (by simp)
  | x :: y :: ys, h => by
    show countChar c (x ++ sep ++ pyJoin sep (y :: ys)) = 0
    rw [countChar_append, countChar_append, hsep, h x (by simp),
      countChar_pyJoin_zero c sep hsep (y :: ys) (fun s hs => h s (List.mem_cons_of_mem x hs))]

/-- An effect issued through the connection/cursor collaborator. -/
inductive DbEffect where
  | setSearchPath (schema : String)
  | executeMany (sql : String) (nrows : Nat)
  | commit
deriving DecidableEq

/- ===== Statement Builder (gerenciador_banco_dados.py lines 219-267) ===== -/

/-- Placeholder list of insert_sql, line 228: a percent-s marker per catalog
column. -/
def insert_placeholders (col_names : List String) : List String :=
  List.replicate col_names.length "%s"

/-- insert_sql, gerenciador_banco_dados.py lines 219-230 (the same text is
built by DataBaseEngine.__sql_for_insert lines 191-196 and by
DataBaseEngine_script.sql_for_insert lines 48-53): a parameterized INSERT
listing the bound catalog columns in catalog order. -/
def insert_sql (table : String) (col_names : List String) : String :=
  "INSERT INTO " ++ table ++ " (" ++ pyJoin ", " col_names ++ ") VALUES ("
    ++ pyJoin ", " (insert_placeholders col_names) ++ ")"

/-- update_cols of upsert_sql, lines 251-254: Python truthiness means a None or
empty excluded_cols keeps every catalog column; otherwise the excluded names
are filtered out. The primary key is not treated specially. -/
def update_cols (col_names excluded_cols : List String) : List String :=
  if excluded_cols.isEmpty then col_names
  else col_names.filter (fun c => !excluded_cols.contains c)

/-- Placeholder list of upsert_sql, line 256: one marker per retained
(non-excluded) column, not per catalog column. -/
def upsert_placeholders (col_names excluded_cols : List String) : List String :=
  List.replicate (update_cols col_names excluded_cols).length "%s"

/-- MySQL update assignments of upsert_sql, line 260: col=VALUES(col) for each
retained column. -/
def mysql_update_assignments (col_names excluded_cols : List String) : List String :=
  (update_cols col_names excluded_cols).map (fun c => c ++ "=VALUES(" ++ c ++ ")")

/-- PostgreSQL update assignments of upsert_sql, line 263: col=EXCLUDED.col for
each retained column. -/
def pg_update_assignments (col_names excluded_cols : List String) : List String :=
  (update_cols col_names excluded_cols).map (fun c => c ++ "=EXCLUDED." ++ c)

/-- Conflict target of the PostgreSQL upsert, line 264: key_col is
self.col_names[0], the first catalog column, with no primary-key introspection
(an empty catalog raises IndexError, modelled none). -/
def pg_key_col (col_names : List String) : Option String :=
  col_names.head?

/-- upsert_sql, gerenciador_banco_dados.py lines 232-267. The INSERT column
list and the placeholders are both built from update_cols; a bd_type other
than mysql and postgres reaches the return with sql unbound (UnboundLocalError
at run time), modelled none. -/
def upsert_sql (bd_type table : String) (col_names excluded_cols : List String) :
    Option String :=
  let colsTxt := pyJoin ", " (update_cols col_names excluded_cols)
  let phTxt := pyJoin ", " (upsert_placeholders col_names excluded_cols)
  if bd_type = "mysql" then
    some ("INSERT INTO " ++ table ++ " (" ++ colsTxt ++ ") VALUES (" ++ phTxt
      ++ ") ON DUPLICATE KEY UPDATE "
      ++ pyJoin ", " (mysql_update_assignments col_names excluded_cols))
  else if bd_type = "postgres" then
    match pg_key_col col_names with
    | some k =>
      some ("INSERT INTO " ++ table ++ " (" ++ colsTxt ++ ") VALUES (" ++ phTxt
        ++ ") ON CONFLICT (" ++ k ++ ") DO UPDATE SET "
        ++ pyJoin ", " (pg_update_assignments col_names excluded_cols))
    | none => none
  else none

/- ===== Constructors and introspection ===== -/

/-- GerenciadorBancoDados.__init__, lines 32-41: a bd_type outside
mysql/postgres raises TypeError at construction; otherwise the port and driver
module are selected. -/
def gerenciador_init (bd_type : String) : Except String (Nat × String) :=
  if bd_type ≠ "mysql" ∧ bd_type ≠ "postgres" then
    Except.error ("bd_type=" ++ bd_type ++ " | Tipo nao suportado.")
  else if bd_type = "postgres" then Except.ok (5432, "psycopg2")
  else Except.ok (3306, "pymysql")

/-- DataBaseEngine.__init__, DataBaseEngine.py lines 56-105 (module selection
at lines 83-88): there is no dialect validation at all; any tag other than
postgres, recognized or not, silently takes the MySQL port and driver, and
construction succeeds. -/
def DataBaseEngine_init (bd_type : String) : Nat × String :=
  if bd_type = "postgres" then (5432, "psycopg2") else (3306, "pymysql")

/-- sql_for_insert, DataBaseEngine_script.py lines 29-53 (the same branching
appears in DataBaseEngine.__sql_for_insert lines 184-189): only here, at
statement-generation time, is an unknown bd_type rejected with ValueError.
col_names models the column names fetched by the introspection query. -/
def sql_for_insert (bd_type table : String) (col_names : List String) :
    Except String String :=
  if bd_type = "mysql" ∨ bd_type = "postgres" then
    Except.ok (insert_sql table col_names)
  else Except.error ("bd_type " ++ bd_type ++ " nao configurado")

/-- Column extraction [column[0] for column in cur.fetchall()], lines 141 and
191: the first field of each fetched row. -/
def fetched_first_components (rows : List (List String)) : List String :=
  rows.filterMap List.head?

/-- GerenciadorBancoDados.__get_col_names, lines 124-148: binding fails when
the introspection query returns zero columns. -/
def get_col_names (rows : List (List String)) : Except String (List String) :=
  let cs := fetched_first_components rows
  if cs.isEmpty then
    Except.error "Colunas nao encontradas. Verifique as permissoes do usuario/database."
  else Except.ok cs

/-- get_primary_key, lines 269-323: after running the key-introspection query
the method returns cur.fetchone(), the FIRST fetched row only; a fetch on an
empty result gives None, an unknown bd_type raises inside the try block and
the except handler swallows the error (returning None). queryRows models the
rows the introspection query produces, one row per primary-key column. -/
def get_primary_key (bd_type : String) (queryRows : List (List String)) :
    Option (List String) :=
  if bd_type = "postgres" ∨ bd_type = "mysql" then queryRows.head? else none

/-- Ordered list of every key column the introspection query reports (the
first field of each fetched row), for comparison with get_primary_key. -/
def introspected_key_columns (queryRows : List (List String)) : List String :=
  fetched_first_components queryRows

/- ===== Batch Writer ===== -/

/-- Chunking of the frame rows produced by the loop for i in
range(0, len(df), chunksize) with slice df.iloc[i:i+chunksize]: one chunk per
loop index. A zero chunk size raises ValueError in Python before any
iteration; the model issues no chunks there. -/
def batch_chunks (n : Nat) (l : List α) : List (List α) :=
  if n = 0 then []
  else (List.range ((l.length + n - 1) / n)).map (fun i => (l.drop (i * n)).take n)

/-- batch_insert, gerenciador_banco_dados.py lines 374-391: an optional SET
search_path for postgres, then one executemany per chunk with
chunksize = min(len(df), 1000). No commit is ever issued; an empty frame makes
the chunk size zero and Python raises ValueError after the search_path
statement, again without a commit. -/
def batch_insert_trace (bd_type schema sql : String) (df : List (List String)) :
    List DbEffect :=
  (if bd_type = "postgres" then [DbEffect.setSearchPath schema] else [])
    ++ (batch_chunks (min df.length 1000) df).map
        (fun c => DbEffect.executeMany sql c.length)

/-- batch_insert, DataBaseEngine_script.py lines 55-84: connects, sets
search_path for postgres, builds the INSERT via sql_for_insert, writes chunks
of 2000 and then COMMITS (line 82) before closing the connection. col_names
models the introspection result consumed by sql_for_insert. -/
def script_batch_insert_trace (bd_type schema table : String)
    (col_names : List String) (df : List (List String)) :
    Except String (List DbEffect) :=
  match sql_for_insert bd_type table col_names with
  | Except.error e => Except.error e
  | Except.ok sql =>
    Except.ok ((if bd_type = "postgres" then [DbEffect.setSearchPath schema] else [])
      ++ (batch_chunks 2000 df).map (fun c => DbEffect.executeMany sql c.length)
      ++ [DbEffect.commit])

/- ===== Surrogate Hasher (gerenciador_banco_dados.py lines 196-217) ===== -/

/-- Value carried in a frame cell, with its Python str() form. -/
inductive PyValue where
  | int (n : Int)
  | str (s : String)
deriving DecidableEq

/-- Python str() of a cell value. -/
def pyStr : PyValue → String
  | PyValue.int n => toString n
  | PyValue.str s => s

/-- Separator-free concatenation of line 217,
sep.join with empty separator over map(str, row.values) where the row was
projected to the identity columns in the given order. A row is modelled as the
mapping from column name to cell value. -/
def row_concat (columns : List String) (row : String → PyValue) : String :=
  pyJoin "" (columns.map (fun c => pyStr (row c)))

/-- surrogated_hash, lines 196-217: one digest per frame row, in frame order,
each the digest of the separator-free concatenation of the string forms of the
identity-column values. The digest parameter abstracts
hashlib.sha384(text.encode()).hexdigest(), the hex-encoded 384-bit digest of
the Python standard library, as a pure function of the concatenated text. -/
def surrogated_hash (digest : String → String) (df : List (String → PyValue))
    (columns : List String) : List String :=
  df.map (fun row => digest (row_concat columns row))

/- ===== Fact SCD Merge Engine (gerenciador_banco_dados.py lines 425-460) ===== -/

/-- A candidate or warehouse row: the mapping from column name to the stored
text value. -/
abbrev Row := String → String

/-- select_hash, lines 345-372: SELECT col_list FROM schema.table WHERE
pk IN (values), optionally AND ultimo_registro equal to the text True. The
warehouse argument models the table contents the query runs against; the
projection to col_list is immaterial for rows modelled as total mappings. -/
def select_hash (warehouse : List Row) (pk : String) (values : List String)
    (ultimo_registro : Bool) : List Row :=
  warehouse.filter
    (fun w => values.contains (w pk) && (!ultimo_registro || w "ultimo_registro" == "True"))

/-- df_dw of carga_scd_fato, line 436: the current warehouse versions fetched
with the candidates hash values as the IN-list on the pk column. -/
def scd_df_dw (warehouse df : List Row) (pk hashCol : String) : List Row :=
  select_hash warehouse pk (df.map (fun r => r hashCol)) true

/-- Right-only rows of the merge at line 438: fetched warehouse rows whose pk
value matches no hash among df.iloc[4:] — the source drops the first FOUR
candidate rows from the left side of this merge. -/
def scd_right_only (df df_dw : List Row) (pk hashCol : String) : List Row :=
  df_dw.filter (fun w => !((df.drop 4).map (fun r => r hashCol)).contains (w pk))

/-- Rows written by the close-upsert batch, lines 441-451: when any right-only
row exists, every df_dw row whose pk is among the right-only pks (the mask at
lines 442-443) is re-written through upsert_sql with ultimo_registro False and
dt_fim_movimento set to the reference date. -/
def scd_close_rows (warehouse df : List Row) (pk hashCol : String) : List Row :=
  let dfdw := scd_df_dw warehouse df pk hashCol
  let ro := scd_right_only df dfdw pk hashCol
  if ro.length > 0 then
    dfdw.filter (fun w => (ro.map (fun r => r pk)).contains (w pk))
  else []

/-- Left-only candidates of the merge at line 453: candidates whose hash
matches no fetched warehouse pk. -/
def scd_new_rows (warehouse df : List Row) (pk hashCol : String) : List Row :=
  let dfdw := scd_df_dw warehouse df pk hashCol
  df.filter (fun r => !(dfdw.map (fun w => w pk)).contains (r hashCol))

/-- Rows written by the insert batch, lines 457-460: when any left-only
candidate exists, line 459 passes df — the WHOLE candidate frame — to
batch_insert, not the computed df_novos_registros. -/
def scd_insert_rows (warehouse df : List Row) (pk hashCol : String) : List Row :=
  if (scd_new_rows warehouse df pk hashCol).length > 0 then df else []

/-- carga_scd_fato, lines 425-460, summarised by its write set: the rows
issued by the close-upsert batch and the rows issued by the insert batch (each
batch is followed by a commit in the source). -/
def carga_scd_fato_writes (warehouse df : List Row) (pk hashCol : String) :
    List Row × List Row :=
  (scd_close_rows warehouse df pk hashCol, scd_insert_rows warehouse df pk hashCol)

/-- Warehouse state right after a successful merge of the given candidates:
every candidate hash is present as a current version. -/
def merged_state (warehouse df : List Row) (pk hashCol : String) : Prop :=
  ∀ r ∈ df, ∃ w ∈ warehouse, w pk = r hashCol ∧ w "ultimo_registro" = "True"

/- ===== Concrete rows for the SCD counterexamples ===== -/

/-- Candidate row already merged: natural key K0, content hash h0. -/
def candRow0 : Row := fun c =>
  if c = "scdhash" then "h0" else if c = "nk" then "K0" else ""

/-- Current warehouse version of candRow0: pk column holds its hash h0. -/
def whRow0 : Row := fun c =>
  if c = "pk" then "h0"
  else if c = "ultimo_registro" then "True"
  else if c = "nk" then "K0" else ""

/-- Changed candidate row: natural key K1 with new content hash h2. -/
def candRow1 : Row := fun c =>
  if c = "scdhash" then "h2" else if c = "nk" then "K1" else ""

/-- Current warehouse version superseded by candRow1: same natural key K1,
old hash h1 in the pk column. -/
def whRow1 : Row := fun c =>
  if c = "pk" then "h1"
  else if c = "ultimo_registro" then "True"
  else if c = "nk" then "K1" else ""

/- ===== Helper lemmas ===== -/

theorem countChar_percent_placeholders :
    ∀ n : Nat, countChar '%' (pyJoin ", " (List.replicate n "%s")) = n
  | 0 => rfl
  | 1 => rfl
  | n + 2 => by
    show countChar '%' ("%s" ++ ", " ++ pyJoin ", " (List.replicate (n + 1) "%s")) = n + 2
    rw [countChar_append, countChar_append, countChar_percent_placeholders (n + 1)]
    have h1 : countChar '%' "%s" = 1 := rfl
    have h2 : countChar '%' ", " = 0 := rfl
    rw [h1, h2]
    omega

/- ===== Claim theorems ===== -/

/-- C6: for every bound, non-empty column catalog, the statement returned by
insert_sql names each catalog column exactly once in catalog order (its column
segment is the comma join of the catalog list itself), and contains exactly as
many parameter placeholders as the catalog has columns: the placeholder list
has catalog length, and, when neither the table name nor any column name
contains a percent character, the percent count of the whole statement equals
the catalog column count. -/
theorem insert_sql_spec (table : String) (cols : List String) (hne : cols ≠ [])
    (ht : countChar '%' table = 0) (hc : ∀ c ∈ cols, countChar '%' c = 0) :
    insert_sql table cols
      = "INSERT INTO " ++ table ++ " (" ++ pyJoin ", " cols ++ ") VALUES ("
          ++ pyJoin ", " (insert_placeholders cols) ++ ")"
    ∧ (insert_placeholders cols).length = cols.length
    ∧ countChar '%' (insert_sql table cols) = cols.length := by
  refine ⟨rfl, List.length_replicate _ _, ?_⟩
  have hph : countChar '%' (pyJoin ", " (insert_placeholders cols)) = cols.length :=
    countChar_percent_placeholders cols.length
  have hcols : countChar '%' (pyJoin ", " cols) = 0 :=
    countChar_pyJoin_zero '%' ", " rfl cols hc
  have e1 : countChar '%' "INSERT INTO " = 0 := rfl
  have e2 : countChar '%' " (" = 0 := rfl
  have e3 : countChar '%' ") VALUES (" = 0 := rfl
  have e4 : countChar '%' ")" = 0 := rfl
  show countChar '%' ("INSERT INTO " ++ table ++ " (" ++ pyJoin ", " cols
      ++ ") VALUES (" ++ pyJoin ", " (insert_placeholders cols) ++ ")") = cols.length
  simp only [countChar_append, e1, e2, e3, e4, ht, hcols, hph]
  omega

/-- Witness for C6 on the users scenario of the spec. -/
theorem insert_sql_spec_witness :
    (insert_placeholders ["id", "name", "email"]).length = 3
    ∧ countChar '%' (insert_sql "users" ["id", "name", "email"]) = 3 :=
  ⟨(insert_sql_spec "users" ["id", "name", "email"] (by decide) rfl (by decide)).2.1,
   (insert_sql_spec "users" ["id", "name", "email"] (by decide) rfl (by decide)).2.2⟩

/-- C2 counterexample: on the catalog [id, name] whose primary key is id (the
users scenario of the spec, and for the postgres branch id is the very column
the source uses as conflict key), an upsert with no exclusions carries the
primary-key column inside the update clause in both dialects, refuting the
sentence that the update clause never contains the primary-key column. -/
theorem upsert_update_clause_contains_key :
    pg_key_col ["id", "name"] = some "id"
    ∧ "id=EXCLUDED.id" ∈ pg_update_assignments ["id", "name"] []
    ∧ "id=VALUES(id)" ∈ mysql_update_assignments ["id", "name"] [] := by
  refine ⟨rfl, by decide, by decide⟩

/-- C2 amended: the update clause of upsert_sql is built from every catalog
column except the caller-excluded ones; the primary key is not treated
specially and appears in the update clause whenever the caller does not
exclude it. -/
theorem update_cols_membership (col_names excluded_cols : List String) (c : String) :
    c ∈ update_cols col_names excluded_cols ↔ c ∈ col_names ∧ c ∉ excluded_cols := by
  unfold update_cols
  by_cases h : excluded_cols.isEmpty
  · simp [h, List.isEmpty_iff.mp h]
  · simp [h, List.mem_filter]

/-- Witness for C2 amended: on catalog [id, name] with the key column id
excluded by the caller, name stays in the update clause and id leaves it. -/
theorem update_cols_membership_witness :
    "name" ∈ update_cols ["id", "name"] ["id"]
    ∧ ¬ "id" ∈ update_cols ["id", "name"] ["id"] :=
  ⟨(update_cols_membership ["id", "name"] ["id"] "name").mpr ⟨by decide, by decide⟩,
   fun h => ((update_cols_membership ["id", "name"] ["id"] "id").mp h).2 (by decide)⟩

/-- C4: the code evaluated at catalog [id, name, email] with excluded_cols
[email] on postgres: the upsert INSERT column list is built from update_cols,
so the excluded column email disappears from the INSERT list as well, and the
placeholder count is 2, not the full catalog count 3. -/
theorem upsert_insert_list_drops_excluded :
    upsert_sql "postgres" "t" ["id", "name", "email"] ["email"]
      = some ("INSERT INTO t (id, name) VALUES (%s, %s) ON CONFLICT (id) "
          ++ "DO UPDATE SET id=EXCLUDED.id, name=EXCLUDED.name")
    ∧ update_cols ["id", "name", "email"] ["email"] = ["id", "name"]
    ∧ (upsert_placeholders ["id", "name", "email"] ["email"]).length = 2 := by
  refine ⟨rfl, rfl, rfl⟩

/-- C10: for every table, every non-empty catalog (head column c0) and every
excluded_cols list, the PostgreSQL upsert places the FIRST catalog column as
the ON CONFLICT target. The statement is a function of the catalog and the
exclusions alone — the model, like source lines 262-265, takes no primary-key
introspection input, so get_primary_key is never consulted and the conflict
target coincides with the real key only when that key happens to be the first
catalog column. -/
theorem upsert_conflict_target_first_column (table c0 : String)
    (rest excluded_cols : List String) :
    pg_key_col (c0 :: rest) = some c0
    ∧ upsert_sql "postgres" table (c0 :: rest) excluded_cols
      = some ("INSERT INTO " ++ table ++ " ("
          ++ pyJoin ", " (update_cols (c0 :: rest) excluded_cols) ++ ") VALUES ("
          ++ pyJoin ", " (upsert_placeholders (c0 :: rest) excluded_cols)
          ++ ") ON CONFLICT (" ++ c0 ++ ") DO UPDATE SET "
          ++ pyJoin ", " (pg_update_assignments (c0 :: rest) excluded_cols)) :=
  ⟨rfl, rfl⟩

/-- C1: the code evaluated at the failing input — one candidate (hash h0)
re-run immediately after a successful merge, so the warehouse already holds
its current h0 version (merged_state holds). The claim demands zero writes,
but the engine issues a close-upsert re-writing the h0 version (because line
438 merges only df.iloc[4:], every current version whose hash sits in the
first four candidate rows counts as outdated); the insert batch is indeed
empty. -/
theorem scd_rerun_not_idempotent :
    merged_state [whRow0] [candRow0] "pk" "scdhash"
    ∧ (carga_scd_fato_writes [whRow0] [candRow0] "pk" "scdhash").1.map
        (fun w => w "pk") = ["h0"]
    ∧ (carga_scd_fato_writes [whRow0] [candRow0] "pk" "scdhash").2 = [] := by
  refine ⟨?_, rfl, rfl⟩
  intro r hr
  exact ⟨whRow0, by simp, by
    simp only [List.mem_singleton] at hr
    subst hr
    exact ⟨rfl, rfl⟩⟩

/-- C3: the code evaluated at the failing input — candidates [candRow1 (key
K1, new hash h2, Changed), candRow0 (key K0, hash h0, Unchanged)] against a
warehouse holding current versions whRow1 (K1, old hash h1) and whRow0 (K0,
h0). The claim demands exactly one close-write on the superseded h1 version
and exactly one insert of the changed candidate. The code instead closes the
h0 version of the UNCHANGED candidate (the superseded h1 version is never
fetched, because line 436 queries current versions by candidate hash, and h1
is no candidate hash) and issues two insert-writes, since line 459 passes the
whole candidate frame to batch_insert. -/
theorem scd_changed_row_writes_diverge :
    (carga_scd_fato_writes [whRow0, whRow1] [candRow1, candRow0] "pk" "scdhash").1.map
        (fun w => w "pk") = ["h0"]
    ∧ (carga_scd_fato_writes [whRow0, whRow1] [candRow1, candRow0] "pk" "scdhash").2.length
        = 2 :=
  ⟨rfl, rfl⟩

/-- C5 counterexample: the DataBaseEngine_script revision of batch_insert,
run on one row against mysql, commits the transaction itself after the last
chunk, refuting the sentence that batch_insert never invokes commit. -/
theorem script_batch_insert_commits :
    script_batch_insert_trace "mysql" "public" "t" ["c1"] [["v1"]]
      = Except.ok [DbEffect.executeMany "INSERT INTO t (c1) VALUES (%s)" 1,
          DbEffect.commit] := rfl

/-- C5 amended: the Batch Writer of the main manager
(gerenciador_banco_dados.batch_insert) never commits — its effect trace
contains no commit for any dialect, schema, statement and frame — leaving
transaction disposition to the caller; the legacy script revision commits
itself. -/
theorem batch_insert_trace_no_commit (bd_type schema sql : String)
    (df : List (List String)) :
    (batch_insert_trace bd_type schema sql df).count DbEffect.commit = 0 := by
  unfold batch_insert_trace
  rw [List.count_append]
  have h1 : (if bd_type = "postgres" then [DbEffect.setSearchPath schema]
      else []).count DbEffect.commit = 0 := by
    by_cases h : bd_type = "postgres" <;> simp [h]
  have h2 : ((batch_chunks (min df.length 1000) df).map
      (fun c => DbEffect.executeMany sql c.length)).count DbEffect.commit = 0 := by
    rw [List.count_eq_zero]
    intro hmem
    rcases List.mem_map.mp hmem with ⟨c, _, hc⟩
    exact DbEffect.noConfusion hc
  rw [h1, h2]

/-- C7: the Surrogate Hasher returns one digest per input row in input order
(the output has the frame length and the i-th digest is the digest of the
i-th row), each digest is the digest function applied to the separator-free
concatenation of the string forms of the identity-column values in the given
column order, and any two rows whose identity-column values agree after
string coercion receive equal digests; the digest function abstracts the
hex-encoded 384-bit sha384 of the standard library, applied to that
concatenation and nothing else, so the result does not depend on when the
hasher is called. -/
theorem surrogated_hash_spec (digest : String → String)
    (df : List (String → PyValue)) (columns : List String) :
    (surrogated_hash digest df columns).length = df.length
    ∧ (∀ i : Nat, (surrogated_hash digest df columns)[i]?
        = (df[i]?).map (fun row => digest (row_concat columns row)))
    ∧ (∀ r1 r2 : String → PyValue, (∀ c ∈ columns, pyStr (r1 c) = pyStr (r2 c)) →
        digest (row_concat columns r1) = digest (row_concat columns r2)) := by
  refine ⟨List.length_map _ _, fun i => ?_, fun r1 r2 h => ?_⟩
  · simp [surrogated_hash]
  · exact congrArg digest (congrArg (pyJoin "") (List.map_congr_left h))

/-- Example rows for the C7 witness: the pair (int 1, str 23) and the pair
(str 1, str 23) coincide after string coercion. -/
def exRowA : String → PyValue := fun c =>
  if c = "a" then PyValue.int 1 else PyValue.str "23"

def exRowB : String → PyValue := fun c =>
  if c = "a" then PyValue.str "1" else PyValue.str "23"

/-- Witness for C7 at a concrete digest function and two concrete rows with
equal coerced identity values. -/
theorem surrogated_hash_spec_witness :
    (surrogated_hash (fun s => s ++ "!") [exRowA, exRowB] ["a", "b"]).length = 2
    ∧ (fun s : String => s ++ "!") (row_concat ["a", "b"] exRowA)
        = (fun s : String => s ++ "!") (row_concat ["a", "b"] exRowB) :=
  ⟨(surrogated_hash_spec (fun s => s ++ "!") [exRowA, exRowB] ["a", "b"]).1,
   (surrogated_hash_spec (fun s => s ++ "!") [exRowA, exRowB] ["a", "b"]).2.2
     exRowA exRowB (by decide)⟩

/-- C8 counterexample: constructing DataBaseEngine with the unrecognized tag
oracle succeeds (silently taking the MySQL port and driver), and the tag is
only rejected later, at statement-generation time, by sql_for_insert —
refuting the sentence that an unrecognized dialect tag always fails at
construction and is never deferred to call time. -/
theorem DataBaseEngine_accepts_unknown_dialect :
    DataBaseEngine_init "oracle" = (3306, "pymysql")
    ∧ sql_for_insert "oracle" "t" ["c1"]
        = Except.error "bd_type oracle nao configurado" :=
  ⟨rfl, rfl⟩

/-- C8 amended: for every tag outside mysql/postgres, GerenciadorBancoDados
rejects it at construction with TypeError, so no operation on such an instance
ever proceeds; the legacy DataBaseEngine revisions instead accept any tag at
construction (falling back to the MySQL defaults) and only fail later, at
statement generation. -/
theorem dialect_validation_sites (bd : String) (h1 : bd ≠ "mysql")
    (h2 : bd ≠ "postgres") (table : String) (cols : List String) :
    gerenciador_init bd = Except.error ("bd_type=" ++ bd ++ " | Tipo nao suportado.")
    ∧ DataBaseEngine_init bd = (3306, "pymysql")
    ∧ sql_for_insert bd table cols
        = Except.error ("bd_type " ++ bd ++ " nao configurado") := by
  refine ⟨?_, ?_, ?_⟩
  · unfold gerenciador_init
    rw [if_pos ⟨h1, h2⟩]
  · unfold DataBaseEngine_init
    rw [if_neg h2]
  · unfold sql_for_insert
    rw [if_neg ?_]
    rintro (h | h)
    · exact h1 h
    · exact h2 h

/-- Witness for C8 amended at the concrete tag oracle. -/
theorem dialect_validation_sites_witness :
    gerenciador_init "oracle"
      = Except.error ("bd_type=" ++ "oracle" ++ " | Tipo nao suportado.")
    ∧ DataBaseEngine_init "oracle" = (3306, "pymysql")
    ∧ sql_for_insert "oracle" "tab" ["c1", "c2"]
        = Except.error ("bd_type " ++ "oracle" ++ " nao configurado") :=
  dialect_validation_sites "oracle" (by decide) (by decide) "tab" ["c1", "c2"]

/-- C9 counterexample: a table whose key-introspection query reports the two
key columns k1 and k2 (one fetched row per column). get_primary_key returns
cur.fetchone(), only the first row, not the ordered list of all key columns —
refuting the sentence that it returns every key column. -/
theorem get_primary_key_first_row_only :
    get_primary_key "postgres" [["k1"], ["k2"]]
      ≠ some (introspected_key_columns [["k1"], ["k2"]]) := by decide

/-- C9 amended: for either recognized dialect, get_primary_key returns only
the first fetched row of the key-introspection result, and returns None
(rather than failing with SchemaError) when the result is empty; no caller on
the upsert/SCD paths consults it. -/
theorem get_primary_key_fetchone (bd : String)
    (hbd : bd = "mysql" ∨ bd = "postgres") (r : List String)
    (rows : List (List String)) :
    get_primary_key bd (r :: rows) = some r ∧ get_primary_key bd [] = none := by
  rcases hbd with h | h <;> subst h <;> exact ⟨rfl, rfl⟩

/-- Witness for C9 amended at the two-key-column introspection result. -/
theorem get_primary_key_fetchone_witness :
    get_primary_key "mysql" [["k1"], ["k2"]] = some ["k1"]
    ∧ get_primary_key "mysql" [] = none :=
  get_primary_key_fetchone "mysql" (Or.inl rfl) ["k1"] [["k2"]]

end PyDataBridge
